import Mathlib

/-!
Shallow embedding of the content-negotiation and parameter-merging core of
myip (src/myip/core.py): the content-type registry CONTENT_TYPES, the
JSON-body helper json_frm, the parameter merger merge_frm, the format
resolver wants_type, and the predicate want_json, together with theorems
settling the specification claims about them.

Python dictionaries are modelled as association lists with Python's
insert-or-update-in-place semantics; fallible Python code (operations that
can raise) is modelled in the Except monad.
-/

namespace Myip

/-- Python dict with string keys, modelled as an association list in
insertion order. -/
abbrev Dict (α : Type) : Type := List (String × α)

/-- Python d.get(k): the value at the first matching key, if any. -/
def dictGet {α : Type} (d : Dict α) (k : String) : Option α :=
  (d.find? (fun p => p.1 == k)).map (fun p => p.2)

/-- Python d.get(k, dflt). -/
def dictGetD {α : Type} (d : Dict α) (k : String) (dflt : α) : α :=
  (dictGet d k).getD dflt

/-- Python d[k] = v: update the value in place when the key is present,
otherwise append the new pair at the end (dict insertion-order semantics). -/
def dictInsert {α : Type} (d : Dict α) (k : String) (v : α) : Dict α :=
  if d.any (fun p => p.1 == k) then d.map (fun p => if p.1 == k then (k, v) else p)
  else d ++ [(k, v)]

/-- Python dict unpacking overlay, the second operand of a
\x7b**d, **items\x7d expression: insert every pair of items into d in order. -/
def dictUpdate {α : Type} (d : Dict α) (items : List (String × α)) : Dict α :=
  items.foldl (fun acc p => dictInsert acc p.1 p.2) d

/-- Whether an Except value is a success, so Python code that did not
raise. -/
def exceptIsOk {ε α : Type} : Except ε α → Bool
  | Except.ok _ => true
  | Except.error _ => false

/-- Parsed JSON value, as produced by Flask Request.get_json. A JSON null
body is indistinguishable from an absent body (both are Python None), so
there is no null constructor; absence is Option.none at the use site. -/
inductive Json : Type where
  | jbool (b : Bool)
  | jnum (n : Int)
  | jstr (s : String)
  | jarr (l : List Json)
  | jobj (o : List (String × Json))

/-- Values of the merged parameter dict: strings from the query string and
form body, arbitrary JSON values from the JSON body. -/
inductive Val : Type where
  | strV (s : String)
  | jsonV (j : Json)

/-- Modelled from the spec: the inbound HTTP request as consumed by this
core — its headers, its query-string dict (Flask request.args), its
form-body dict (request.form), and the outcome of Flask Request.get_json
with silent=True (an external collaborator not in src/): none when the
body is absent, empty, or fails to parse as JSON, otherwise the parsed
JSON value. -/
structure PyRequest : Type where
  headers : Dict String
  args : Dict String
  form : Dict String
  jsonBody : Option Json

/-- privex.helpers empty(v, itr=True, zero=True) on a parsed JSON value:
empty string, zero, False (which Python counts as 0), empty list and empty
dict are all empty. -/
def jEmpty : Json → Bool
  | Json.jstr s => s == ""
  | Json.jnum n => n == 0
  | Json.jbool b => b == false
  | Json.jarr l => l.isEmpty
  | Json.jobj o => o.isEmpty

/-- privex.helpers empty(j, itr=True, zero=True) on the result of
Request.get_json: Python None (absent/unparseable body) is empty, and
otherwise jEmpty decides. -/
def jsonOutcomeEmpty : Option Json → Bool
  | none => true
  | some j => jEmpty j

/-- json_frm from core.py, at the arguments merge_frm passes it
(force=True, silent=True, fallback=dict, call_fb=True): the parsed JSON
body, with the empty dict as fallback whenever the parse outcome is empty
per empty(j, itr=True, zero=True). -/
def json_frm (req : PyRequest) : Json :=
  match req.jsonBody with
  | none => Json.jobj []
  | some j => if jEmpty j then Json.jobj [] else j

/-- merge_frm from core.py: overlay the query-string dict, then the
form dict, then the JSON body onto an empty dict. Each overlay is Python
\x7b**data, **src\x7d; unpacking the JSON body with ** raises TypeError
when json_frm returned a non-mapping (a non-empty JSON array, string,
number or true), which the Except monad records as an error. -/
def merge_frm (use_get use_post use_json : Bool) (req : PyRequest) :
    Except String (Dict Val) :=
  let data : Dict Val := []
  let data := if use_get then dictUpdate data (req.args.map (fun p => (p.1, Val.strV p.2))) else data
  let data := if use_post then dictUpdate data (req.form.map (fun p => (p.1, Val.strV p.2))) else data
  if use_json then
    match json_frm req with
    | Json.jobj kvs => Except.ok (dictUpdate data (kvs.map (fun p => (p.1, Val.jsonV p.2))))
    | _ => Except.error "TypeError: merge_frm argument after ** must be a mapping"
  else Except.ok data

/-- Request with a query string a=1, a form body a=2 b=3, and JSON body
a=4, the merge-precedence example of the spec. -/
def req5 : PyRequest :=
  ⟨[], [("a", "1")], [("a", "2"), ("b", "3")], some (Json.jobj [("a", Json.jnum 4)])⟩

/-- Request whose body parses to the JSON array [1]: valid JSON, not
empty, not a mapping. -/
def reqArr : PyRequest :=
  ⟨[], [], [], some (Json.jarr [Json.jnum 1])⟩

/-- Request with no parameters, no headers and no body. -/
def emptyReq : PyRequest :=
  ⟨[], [], [], none⟩

/-- Alias list of the json entry of CONTENT_TYPES in core.py. -/
def jsonAliases : List String :=
  ["json", "application/json", "application/x-json", "application/js", "js", "api",
   "text/json", "text/x-json"]

/-- Alias list of the text entry of CONTENT_TYPES in core.py. The last two
entries replicate Python implicit string-literal concatenation in the
source: the source writes adjacent string literals with no comma between
them, fusing application/x-plain with application/plaintext and
application/plain-text with application/text. -/
def textAliases : List String :=
  ["flat", "txt", "plain", "x-plain", "text", "text/*", "text/plain", "text/x-plain",
   "text/plaintext", "plaintext", "plain-text", "text/plain-text", "application/plain",
   "application/x-plainapplication/plaintext", "application/plain-textapplication/text"]

/-- Alias list of the html entry of CONTENT_TYPES in core.py. -/
def htmlAliases : List String :=
  ["htm", "html", "text/html", "text/x-html", "text/xhtml", "text/xhtml+xml",
   "application/html", "application/x-html", "application/xhtml", "application/xhtml+xml",
   "web", "page", "webpage"]

/-- Alias list of the yaml entry of CONTENT_TYPES in core.py. -/
def yamlAliases : List String :=
  ["yml", "yaml", "x-yml", "x-yaml", "text/yaml", "text/vnd.yaml", "text/yml",
   "application/yaml", "application/yml", "text/x-yaml", "text/x-yml",
   "application/vnd.yaml", "application/x-yaml", "application/x-yml"]

/-- CONTENT_TYPES from core.py, in dict insertion order json, text, html,
yaml. -/
def CONTENT_TYPES : List (String × List String) :=
  [("json", jsonAliases), ("text", textAliases), ("html", htmlAliases), ("yaml", yamlAliases)]

/-- The for-loop over CONTENT_TYPES.items() in wants_type: the first
format name whose alias list contains the string, if any. -/
def lookupCT : List (String × List String) → String → Option String
  | [], _ => none
  | t :: rest, s => if s ∈ t.2 then some t.1 else lookupCT rest s

/-- Registry lookup against CONTENT_TYPES. -/
def registryLookup (s : String) : Option String :=
  lookupCT CONTENT_TYPES s

/-- Hardcoded fallback alias list for json in wants_type (line 225). -/
def jsonFallback : List String := ["json", "application/json", "js", "api"]

/-- Hardcoded fallback alias list for text in wants_type (line 226). -/
def textFallback : List String := ["flat", "plain", "text", "text/plain", "plaintext"]

/-- Hardcoded fallback alias list for html in wants_type (line 227). -/
def htmlFallback : List String :=
  ["html", "text/html", "application/html", "web", "page", "webpage"]

/-- Hardcoded fallback alias list for yaml in wants_type (line 228). -/
def yamlFallback : List String :=
  ["yml", "yaml", "text/yaml", "text/yml", "application/yaml", "application/yml"]

/-- Modelled from the spec: a parsed Accept-header entry of the external
accept_types library (not in src/) — a MIME type together with its
RFC 7231 quality value. The quality value is kept in thousandths (q-values
carry at most three decimal places), so 1000 is q=1. -/
structure AcceptableType : Type where
  mime_type : String
  weight : Nat
deriving DecidableEq

/-- Split a character list at every occurrence of a separator character,
Python str.split with a one-character separator: the empty list splits to
one empty part. -/
def splitCharAux (sep : Char) : List Char → List Char → List (List Char)
  | [], acc => [acc.reverse]
  | c :: rest, acc =>
    if c == sep then acc.reverse :: splitCharAux sep rest []
    else splitCharAux sep rest (c :: acc)

/-- Split a character list on a separator character. -/
def splitChar (sep : Char) (l : List Char) : List (List Char) :=
  splitCharAux sep l []

/-- ASCII whitespace, the characters Python str.strip removes in an HTTP
header. -/
def isSpaceChar (c : Char) : Bool :=
  c == ' ' || c == '\t' || c == '\n' || c == '\r'

/-- Python str.strip on a character list. -/
def trimChars (l : List Char) : List Char :=
  ((l.dropWhile isSpaceChar).reverse.dropWhile isSpaceChar).reverse

/-- Decimal digit-string parser: some value when every character is a
digit and the list is non-empty, Python int conversion. -/
def parseNatAux : List Char → Nat → Option Nat
  | [], acc => some acc
  | c :: rest, acc =>
    if c.isDigit then parseNatAux rest (acc * 10 + (c.toNat - 48)) else none

/-- Parse a non-empty all-digit character list as a natural number. -/
def parseNatChars : List Char → Option Nat
  | [] => none
  | c :: rest => parseNatAux (c :: rest) 0

/-- Python str.lower, mapping every character to lower case. -/
def strLower (s : String) : String :=
  String.mk (s.data.map Char.toLower)

/-- Modelled from the spec: parse an RFC 7231 q-value (one integer digit
group, optionally a point and at most three fractional digits) into
thousandths; none when malformed. -/
def qMilli (v : List Char) : Option Nat :=
  match splitChar '.' v with
  | [i] => (parseNatChars i).map (fun n => n * 1000)
  | [i, f] =>
    if f.length = 0 ∨ 3 < f.length then none
    else
      match parseNatChars i, parseNatChars f with
      | some iv, some fv => some (iv * 1000 + fv * 10 ^ (3 - f.length))
      | _, _ => none
  | _ => none

/-- Modelled from the spec: the weight of an Accept entry, read from the
first q= parameter after the MIME type; 1000 (q=1) when absent or
malformed. -/
def getWeight : List (List Char) → Nat
  | [] => 1000
  | pstr :: rest =>
    match trimChars pstr with
    | 'q' :: '=' :: v => (qMilli v).getD 1000
    | _ => getWeight rest

/-- Modelled from the spec: one comma-separated Accept-header entry parsed
into an AcceptableType; an entry with an empty MIME type is unparseable
and dropped. -/
def parseEntry (raw : List Char) : Option AcceptableType :=
  match splitChar ';' (trimChars raw) with
  | [] => none
  | m :: ps =>
    match trimChars m with
    | [] => none
    | mime => some ⟨String.mk mime, getWeight ps⟩

/-- Insert an entry into a list sorted by descending weight, after every
entry of greater or equal weight already present. -/
def insertByWeight (e : AcceptableType) : List AcceptableType → List AcceptableType
  | [] => [e]
  | x :: xs => if x.weight ≤ e.weight then e :: x :: xs else x :: insertByWeight e xs

/-- Stable sort by descending weight (ties keep the original order). -/
def sortByWeight : List AcceptableType → List AcceptableType
  | [] => []
  | e :: rest => insertByWeight e (sortByWeight rest)

/-- Modelled from the spec: accept_types.parse_header (external, not in
src/) — split the header on commas, parse each entry, drop unparseable
ones, and order the result by descending priority with ties in original
header order. -/
def parse_header (s : String) : List AcceptableType :=
  sortByWeight ((splitChar ',' s.data).filterMap parseEntry)

/-- Whether a character list starts with the four characters html. -/
def startsHtml : List Char → Bool
  | 'h' :: 't' :: 'm' :: 'l' :: _ => true
  | _ => false

/-- Whether a character list contains html as a contiguous slice. -/
def charsHaveHtml : List Char → Bool
  | [] => false
  | c :: rest => startsHtml (c :: rest) || charsHaveHtml rest

/-- Python substring test: whether the string html occurs in s. -/
def containsHtml (s : String) : Bool :=
  charsHaveHtml s.data

/-- The for-loop over the parsed Accept entries in wants_type: an entry
whose MIME type contains html returns html at once; otherwise the entry's
lowercased MIME type is looked up in the registry; when no entry resolves,
the sentinel any. -/
def acceptLoop : List AcceptableType → String
  | [] => "any"
  | mt :: rest =>
    if containsHtml mt.mime_type then "html"
    else
      match registryLookup (strLower mt.mime_type) with
      | some t => t
      | none => acceptLoop rest

/-- The body of wants_type after the effective format string is known:
registry loop, then the four hardcoded fallback lists, then the Accept
loop. -/
def resolveFmt (fl : String) (parsed : List AcceptableType) : String :=
  match registryLookup fl with
  | some t => t
  | none =>
    if fl ∈ jsonFallback then "json"
    else if fl ∈ textFallback then "text"
    else if fl ∈ htmlFallback then "html"
    else if fl ∈ yamlFallback then "yaml"
    else acceptLoop parsed

/-- The body of wants_type with the four hardcoded fallback checks
removed, for comparison with resolveFmt. -/
def resolveFmtNoFb (fl : String) (parsed : List AcceptableType) : String :=
  match registryLookup fl with
  | some t => t
  | none => acceptLoop parsed

/-- The effective Accept string of wants_type: the accepts argument when
given and non-empty, else headers.get with default all-types, where
headers falls back to the request headers when absent or empty
(empty(headers, itr=True)). -/
def effAccepts (accepts : Option String) (headers : Option (Dict String)) (req : PyRequest) : String :=
  let hdrs := match headers with
    | none => req.headers
    | some h => if h = [] then req.headers else h
  match accepts with
  | some a => if a = "" then dictGetD hdrs "Accept" "*/*" else a
  | none => dictGetD hdrs "Accept" "*/*"

/-- The query dict of wants_type: merge_frm of the request when the query
argument is Python None (note: an explicitly passed empty dict is not
replaced, since empty(query) is called without itr=True), else the given
dict with its string values. -/
def resolveQuery (query : Option (Dict String)) (req : PyRequest) : Except String (Dict Val) :=
  match query with
  | none => merge_frm true true true req
  | some q => Except.ok (q.map (fun p => (p.1, Val.strV p.2)))

/-- query.get with key format and default html, where calling .lower() on
a non-string value raises AttributeError. -/
def fmtFromQuery (q : Dict Val) : Except String String :=
  match dictGet q "format" with
  | none => Except.ok "html"
  | some (Val.strV s) => Except.ok s
  | some (Val.jsonV (Json.jstr s)) => Except.ok s
  | some (Val.jsonV _) => Except.error "AttributeError: object has no attribute lower"

/-- The effective format string of wants_type: the fmt argument when given
and non-empty (empty(fmt)), else the query dict lookup. -/
def effFmt (q : Dict Val) (fmt : Option String) : Except String String :=
  match fmt with
  | none => fmtFromQuery q
  | some f => if f = "" then fmtFromQuery q else Except.ok f

/-- wants_type from core.py: resolve headers, Accept string, query dict
and effective format as the source does, then run the registry loop, the
fallback lists and the Accept loop over the lowercased effective format. -/
def wants_type (req : PyRequest) (accepts : Option String) (headers : Option (Dict String))
    (query : Option (Dict String)) (fmt : Option String) : Except String String :=
  let parsed := parse_header (effAccepts accepts headers req)
  match resolveQuery query req with
  | Except.error e => Except.error e
  | Except.ok q =>
    match effFmt q fmt with
    | Except.error e => Except.error e
    | Except.ok f => Except.ok (resolveFmt (strLower f) parsed)

/-- wants_type with the four hardcoded fallback alias checks removed,
everything else unchanged. -/
def wants_type_noFallback (req : PyRequest) (accepts : Option String)
    (headers : Option (Dict String)) (query : Option (Dict String)) (fmt : Option String) :
    Except String String :=
  let parsed := parse_header (effAccepts accepts headers req)
  match resolveQuery query req with
  | Except.error e => Except.error e
  | Except.ok q =>
    match effFmt q fmt with
    | Except.error e => Except.error e
    | Except.ok f => Except.ok (resolveFmtNoFb (strLower f) parsed)

/-- want_json from core.py: cf API_ONLY forces true before wants_type is
ever consulted; otherwise the result is the comparison of wants_type with
json. -/
def want_json (apiOnly : Bool) (req : PyRequest) (accepts : Option String)
    (headers : Option (Dict String)) (query : Option (Dict String)) (fmt : Option String) :
    Except String Bool :=
  if apiOnly then Except.ok true
  else
    match wants_type req accepts headers query fmt with
    | Except.error e => Except.error e
    | Except.ok t => Except.ok (t == "json")

/-- Helper: a successful lookup in the registry loop yields one of the
format names of the list. -/
theorem lookupCT_mem {L : List (String × List String)} {s t : String}
    (h : lookupCT L s = some t) : t ∈ L.map Prod.fst := by
  induction L with
  | nil => exact absurd h (by simp [lookupCT])
  | cons hd tl ih =>
    rw [lookupCT] at h
    by_cases hm : s ∈ hd.2
    · rw [if_pos hm] at h
      simp [← Option.some.inj h]
    · rw [if_neg hm] at h
      simp [ih h]

/-- Helper: a failed lookup in the registry loop means the string is in
none of the alias lists. -/
theorem lookupCT_none {L : List (String × List String)} {s : String}
    (h : lookupCT L s = none) : ∀ t ∈ L, s ∉ t.2 := by
  induction L with
  | nil => simp
  | cons hd tl ih =>
    rw [lookupCT] at h
    by_cases hm : s ∈ hd.2
    · rw [if_pos hm] at h
      exact absurd h (by simp)
    · rw [if_neg hm] at h
      intro t ht
      rcases List.mem_cons.mp ht with h1 | h2
      · rw [h1]; exact hm
      · exact ih h t h2

/-- Helper: a successful registry lookup yields one of the four format
names. -/
theorem registryLookup_name {s t : String} (h : registryLookup s = some t) :
    t = "json" ∨ t = "text" ∨ t = "html" ∨ t = "yaml" := by
  have hm := lookupCT_mem h
  simpa [CONTENT_TYPES] using hm

/-- Helper: a failed registry lookup means the string is in none of the
four alias lists. -/
theorem registryLookup_not_mem {s : String} (h : registryLookup s = none) :
    s ∉ jsonAliases ∧ s ∉ textAliases ∧ s ∉ htmlAliases ∧ s ∉ yamlAliases := by
  have hn := lookupCT_none h
  exact ⟨hn ("json", jsonAliases) (by simp [CONTENT_TYPES]),
         hn ("text", textAliases) (by simp [CONTENT_TYPES]),
         hn ("html", htmlAliases) (by simp [CONTENT_TYPES]),
         hn ("yaml", yamlAliases) (by simp [CONTENT_TYPES])⟩

/-- Helper: the Accept loop only ever produces a registry format name,
html, or the sentinel any. -/
theorem acceptLoop_name (l : List AcceptableType) :
    acceptLoop l = "json" ∨ acceptLoop l = "text" ∨ acceptLoop l = "html" ∨
      acceptLoop l = "yaml" ∨ acceptLoop l = "any" := by
  induction l with
  | nil => simp [acceptLoop]
  | cons mt rest ih =>
    rw [acceptLoop]
    by_cases hh : containsHtml mt.mime_type
    · simp [hh]
    · rw [if_neg hh]
      cases hr : registryLookup (strLower mt.mime_type) with
      | none => exact ih
      | some t =>
        rcases registryLookup_name hr with h | h | h | h <;> simp [h]

/-- Helper: the resolver body only ever produces a registry format name,
one of the fallback names, or the sentinel any. -/
theorem resolveFmt_name (fl : String) (parsed : List AcceptableType) :
    resolveFmt fl parsed = "json" ∨ resolveFmt fl parsed = "text" ∨
      resolveFmt fl parsed = "html" ∨ resolveFmt fl parsed = "yaml" ∨
      resolveFmt fl parsed = "any" := by
  rw [resolveFmt]
  cases hr : registryLookup fl with
  | some t => rcases registryLookup_name hr with h | h | h | h <;> simp [h]
  | none =>
    by_cases h1 : fl ∈ jsonFallback
    · simp [h1]
    by_cases h2 : fl ∈ textFallback
    · simp [h1, h2]
    by_cases h3 : fl ∈ htmlFallback
    · simp [h1, h2, h3]
    by_cases h4 : fl ∈ yamlFallback
    · simp [h1, h2, h3, h4]
    simpa [h1, h2, h3, h4] using acceptLoop_name parsed

/-- Helper: looking up the format key in a dict of string values always
succeeds with a string. -/
theorem fmtFromQuery_strv (params : Dict String) :
    ∃ s, fmtFromQuery (params.map (fun p => (p.1, Val.strV p.2))) = Except.ok s := by
  induction params with
  | nil => exact ⟨"html", rfl⟩
  | cons p rest ih =>
    by_cases hk : p.1 == "format"
    · exact ⟨p.2, by simp [fmtFromQuery, dictGet, List.find?, hk]⟩
    · obtain ⟨s, hs⟩ := ih
      refine ⟨s, ?_⟩
      simpa [fmtFromQuery, dictGet, List.find?, hk] using hs

/-- Helper: the effective format of a caller-supplied string-valued params
dict always resolves to some string, never to an error. -/
theorem effFmt_strv (params : Dict String) (fmt : Option String) :
    ∃ s, effFmt (params.map (fun p => (p.1, Val.strV p.2))) fmt = Except.ok s := by
  cases fmt with
  | none => simpa [effFmt] using fmtFromQuery_strv params
  | some f =>
    by_cases hf : f = ""
    · simpa [effFmt, hf] using fmtFromQuery_strv params
    · exact ⟨f, by simp [effFmt, hf]⟩

/-- Helper: when the JSON parse outcome is empty, json_frm falls back to
the empty dict. -/
theorem json_frm_of_empty {req : PyRequest} (h : jsonOutcomeEmpty req.jsonBody = true) :
    json_frm req = Json.jobj [] := by
  unfold json_frm
  cases hb : req.jsonBody with
  | none => rfl
  | some j =>
    rw [hb] at h
    simp only [jsonOutcomeEmpty] at h
    simp [h]

/-- C3: wants_type is total: for every request, every explicit format
(given or absent), every headers argument, every caller-supplied params
dict (the Mapping of strings its signature declares, including the empty
one) and every Accept header string (including malformed or empty ones),
it returns one of json, text, html, yaml, any and never raises. -/
theorem c3_wants_type_total (req : PyRequest) (accepts : String)
    (headers : Option (Dict String)) (params : Dict String) (fmt : Option String) :
    ∃ r, wants_type req (some accepts) headers (some params) fmt = Except.ok r ∧
      (r = "json" ∨ r = "text" ∨ r = "html" ∨ r = "yaml" ∨ r = "any") := by
  obtain ⟨s, hs⟩ := effFmt_strv params fmt
  refine ⟨resolveFmt (strLower s)
    (parse_header (effAccepts (some accepts) headers req)), ?_, resolveFmt_name _ _⟩
  simp [wants_type, resolveQuery, hs]

/-- C1 (counterexample): at the input with no explicit format, an empty
params dict and Accept header application/json, wants_type does not
return json. -/
theorem c1_accept_json_cex :
    ¬ (wants_type emptyReq (some "application/json") none (some []) none = Except.ok "json") := by
  intro h
  rw [show wants_type emptyReq (some "application/json") none (some []) none = Except.ok "html" from
    rfl] at h
  exact absurd (Except.ok.inj h) (by decide)

/-- C1 (amended): with no explicit format and a params dict without a
format key, the effective format string defaults to html, which matches
the html alias set in the registry loop, so wants_type returns html for
any request and any headers argument without ever consulting the Accept
header application/json. -/
theorem c1_accept_json_returns_html (req : PyRequest) (headers : Option (Dict String)) :
    wants_type req (some "application/json") headers (some []) none = Except.ok "html" := rfl

/-- C2 (counterexample): at the input with no explicit format, an empty
params dict and Accept header application/octet-stream, wants_type does
not return the sentinel any. -/
theorem c2_octet_stream_cex :
    ¬ (wants_type emptyReq (some "application/octet-stream") none (some []) none =
      Except.ok "any") := by
  intro h
  rw [show wants_type emptyReq (some "application/octet-stream") none (some []) none =
    Except.ok "html" from rfl] at h
  exact absurd (Except.ok.inj h) (by decide)

/-- C2 (amended): with no explicit format and a params dict without a
format key, the effective format string defaults to html and matches the
html alias set in the registry loop, so wants_type returns html for any
request and any headers argument; the Accept header
application/octet-stream is never consulted and the sentinel any is not
reached. -/
theorem c2_octet_stream_returns_html (req : PyRequest) (headers : Option (Dict String)) :
    wants_type req (some "application/octet-stream") headers (some []) none =
      Except.ok "html" := rfl

/-- C5: with all three sources enabled, merge_frm overlays query, then
form, then JSON body, so on key collisions the JSON body wins over the
form which wins over the query: for query a=1, form a=2 b=3 and JSON body
a=4 the result is a=4, b=3. -/
theorem c5_merge_precedence :
    merge_frm true true true req5 =
      Except.ok [("a", Val.jsonV (Json.jnum 4)), ("b", Val.strV "3")] := rfl

/-- C6: an explicit format argument matching a registry alias is resolved
before the params dict and the Accept header are consulted: explicit
format yml with empty params and Accept header text/html returns yaml,
for any request and any headers argument. -/
theorem c6_explicit_yml_wins (req : PyRequest) (headers : Option (Dict String)) :
    wants_type req (some "text/html") headers (some []) (some "yml") = Except.ok "yaml" := rfl

/-- C9: implicit string-literal concatenation in the text alias list of
CONTENT_TYPES means application/plaintext, application/x-plain,
application/plain-text and application/text are not individually present
as aliases, only their fused concatenations are; hence wants_type with
explicit format application/plaintext or application/text, empty params
and an empty Accept header does not return text (it returns any). -/
theorem c9_text_alias_fusion :
    ("application/plaintext" ∉ textAliases ∧ "application/x-plain" ∉ textAliases ∧
     "application/plain-text" ∉ textAliases ∧ "application/text" ∉ textAliases) ∧
    ("application/x-plainapplication/plaintext" ∈ textAliases ∧
     "application/plain-textapplication/text" ∈ textAliases) ∧
    wants_type emptyReq (some "") (some []) (some []) (some "application/plaintext") =
      Except.ok "any" ∧
    wants_type emptyReq (some "") (some []) (some []) (some "application/text") =
      Except.ok "any" :=
  ⟨⟨by decide, by decide, by decide, by decide⟩, ⟨by decide, by decide⟩, rfl, rfl⟩

/-- C4 (counterexample): a request whose body is the valid, non-empty,
non-object JSON array with the single element 1 makes merge_frm raise:
json_frm returns the array and Python dict unpacking of a non-mapping is
a TypeError. -/
theorem c4_merge_frm_raises_cex :
    merge_frm true true true reqArr =
      Except.error "TypeError: merge_frm argument after ** must be a mapping" := rfl

/-- C4 (amended): merge_frm never raises provided the request body is
absent, fails to parse, parses to an empty or zero JSON value, or parses
to a JSON object; when the body fails to parse or is empty, the JSON
source contributes an empty mapping and the merged result of the
remaining sources is returned unchanged. -/
theorem c4_merge_frm_graceful :
    (∀ (req : PyRequest) (g p : Bool), jsonOutcomeEmpty req.jsonBody = true →
        merge_frm g p true req = merge_frm g p false req ∧
        exceptIsOk (merge_frm g p false req) = true) ∧
    (∀ (req : PyRequest) (g p : Bool) (kvs : List (String × Json)),
        req.jsonBody = some (Json.jobj kvs) →
        exceptIsOk (merge_frm g p true req) = true) := by
  constructor
  · intro req g p h
    constructor
    · simp [merge_frm, json_frm_of_empty h, dictUpdate]
    · rfl
  · intro req g p kvs hb
    have hj : json_frm req = Json.jobj kvs ∨ json_frm req = Json.jobj [] := by
      unfold json_frm
      rw [hb]
      by_cases he : jEmpty (Json.jobj kvs) = true
      · simp [he]
      · simp [he]
    rcases hj with hj | hj <;> simp [merge_frm, hj, exceptIsOk]

/-- C4 (witness): a request with no body merges without error, and with
the same result whether or not the JSON source is enabled. -/
theorem c4_merge_frm_graceful_witness :
    merge_frm true true true emptyReq = merge_frm true true false emptyReq :=
  (c4_merge_frm_graceful.1 emptyReq true true rfl).1

/-- C7: during Accept-header iteration, an entry whose MIME type contains
the substring html returns html immediately, before that entry or any
later entry is matched against the registry (earlier entries must have
neither matched); the parsed header with text/html at q=1.0 ahead of
application/json at q=0.5 makes the loop return html; and wants_type at
that Accept header with no explicit format and empty params returns
html. -/
theorem c7_html_short_circuit :
    (∀ (pre post : List AcceptableType) (e : AcceptableType),
        containsHtml e.mime_type = true →
        (∀ x ∈ pre, containsHtml x.mime_type = false ∧
          registryLookup (strLower x.mime_type) = none) →
        acceptLoop (pre ++ e :: post) = "html") ∧
    acceptLoop (parse_header "text/html;q=1.0, application/json;q=0.5") = "html" ∧
    (∀ (req : PyRequest) (headers : Option (Dict String)),
        wants_type req (some "text/html;q=1.0, application/json;q=0.5") headers (some []) none =
          Except.ok "html") := by
  refine ⟨?_, rfl, fun req headers => rfl⟩
  intro pre post e he hpre
  induction pre with
  | nil => simp [acceptLoop, he]
  | cons x xs ih =>
    have hx := hpre x (by simp)
    have hxs : ∀ y ∈ xs, containsHtml y.mime_type = false ∧
        registryLookup (strLower y.mime_type) = none :=
      fun y hy => hpre y (by simp [hy])
    rw [List.cons_append, acceptLoop, if_neg (by simp [hx.1]), hx.2]
    exact ih hxs

/-- C7 (witness): an Accept list whose first entry matches nothing and
whose second entry contains html resolves to html through the loop. -/
theorem c7_html_short_circuit_witness :
    acceptLoop [⟨"application/octet-stream", 1000⟩, ⟨"text/html", 500⟩] = "html" :=
  c7_html_short_circuit.1 [⟨"application/octet-stream", 1000⟩] []
    ⟨"text/html", 500⟩ (by decide) (by decide)

/-- C8: with API_ONLY set, want_json returns true for every combination
of request, Accept header, headers dict, query params and format; with
API_ONLY unset, want_json returns true exactly when wants_type on the
same inputs returns json. -/
theorem c8_want_json_api_only :
    (∀ (req : PyRequest) (accepts : Option String) (headers query : Option (Dict String))
        (fmt : Option String), want_json true req accepts headers query fmt = Except.ok true) ∧
    (∀ (req : PyRequest) (accepts : Option String) (headers query : Option (Dict String))
        (fmt : Option String),
        want_json false req accepts headers query fmt = Except.ok true ↔
          wants_type req accepts headers query fmt = Except.ok "json") := by
  constructor
  · intro req accepts headers query fmt
    rfl
  · intro req accepts headers query fmt
    cases h : wants_type req accepts headers query fmt with
    | error e => simp [want_json, h]
    | ok t => simp [want_json, h]

/-- Helper: every json fallback alias is a registry json alias. -/
theorem jsonFallback_sub : ∀ s ∈ jsonFallback, s ∈ jsonAliases := by decide

/-- Helper: every text fallback alias is a registry text alias. -/
theorem textFallback_sub : ∀ s ∈ textFallback, s ∈ textAliases := by decide

/-- Helper: every html fallback alias is a registry html alias. -/
theorem htmlFallback_sub : ∀ s ∈ htmlFallback, s ∈ htmlAliases := by decide

/-- Helper: every yaml fallback alias is a registry yaml alias. -/
theorem yamlFallback_sub : ∀ s ∈ yamlFallback, s ∈ yamlAliases := by decide

/-- Helper: dropping the four fallback checks does not change the
resolver body, because a string the registry loop missed is in none of
the alias lists, hence in none of the fallback lists. -/
theorem resolveFmtNoFb_eq (fl : String) (parsed : List AcceptableType) :
    resolveFmtNoFb fl parsed = resolveFmt fl parsed := by
  unfold resolveFmt resolveFmtNoFb
  cases h : registryLookup fl with
  | some t => rfl
  | none =>
    have hn := registryLookup_not_mem h
    have h1 : fl ∉ jsonFallback := fun hm => hn.1 (jsonFallback_sub fl hm)
    have h2 : fl ∉ textFallback := fun hm => hn.2.1 (textFallback_sub fl hm)
    have h3 : fl ∉ htmlFallback := fun hm => hn.2.2.1 (htmlFallback_sub fl hm)
    have h4 : fl ∉ yamlFallback := fun hm => hn.2.2.2 (yamlFallback_sub fl hm)
    simp [h1, h2, h3, h4]

/-- C10: each hardcoded fallback alias list of wants_type is contained in
the corresponding CONTENT_TYPES alias list, and wants_type with the four
fallback checks removed agrees with wants_type on every input. -/
theorem c10_fallback_redundant :
    (jsonFallback.all (fun s => jsonAliases.contains s) = true ∧
     textFallback.all (fun s => textAliases.contains s) = true ∧
     htmlFallback.all (fun s => htmlAliases.contains s) = true ∧
     yamlFallback.all (fun s => yamlAliases.contains s) = true) ∧
    ∀ (req : PyRequest) (accepts : Option String) (headers query : Option (Dict String))
      (fmt : Option String),
      wants_type_noFallback req accepts headers query fmt =
        wants_type req accepts headers query fmt := by
  refine ⟨⟨by decide, by decide, by decide, by decide⟩, ?_⟩
  intro req accepts headers query fmt
  unfold wants_type wants_type_noFallback
  cases hq : resolveQuery query req with
  | error e => rfl
  | ok q =>
    show (match effFmt q fmt with
          | Except.error e => Except.error e
          | Except.ok f => Except.ok (resolveFmtNoFb (strLower f)
              (parse_header (effAccepts accepts headers req)))) =
         (match effFmt q fmt with
          | Except.error e => Except.error e
          | Except.ok f => Except.ok (resolveFmt (strLower f)
              (parse_header (effAccepts accepts headers req))))
    cases effFmt q fmt with
    | error e => rfl
    | ok f => exact congrArg Except.ok (resolveFmtNoFb_eq _ _)

end Myip
